import Mathlib

/-!
Verification of the message-routing / prediction-statistics core of the
myapp_telegram repository, shallowly embedded in Lean.

Modelling conventions:
* Python `str` values are modelled as `List Char` (`PyStr`), i.e. as
  sequences of Unicode code points, which matches CPython's string model.
* `datetime` instants are modelled as integers counting minutes on the UTC
  timeline; `timedelta(hours=h)` is `60 * h`, `timedelta(days=d)` is
  `1440 * d`, and truncation of a datetime to its calendar date is flooring
  to a multiple of 1440.
* SQL `NULL` / Python `None` is `Option.none`; a row dictionary field is an
  `Option` value.
* Python / SQL floating point and `numeric` arithmetic is modelled over `ℚ`.
-/

/-- Python strings as lists of code points. -/
abbrev PyStr := List Char

/-- Model of Python `str.lower()` restricted to the code points exercised by
this code base (ASCII letters; CJK characters and emoji are fixed points of
lowering, as in CPython). -/
def pyLower (s : PyStr) : PyStr := s.map Char.toLower

/-- Model of Python `str.strip()`: remove leading and trailing whitespace. -/
def pyStrip (s : PyStr) : PyStr :=
  ((s.dropWhile Char.isWhitespace).reverse.dropWhile Char.isWhitespace).reverse

/-- Model of Python `str(x)` applied to an optional string: `str(None)` is
the literal text `None`. -/
def pyStrOfOpt : Option PyStr → PyStr
  | none => "None".data
  | some s => s

/-- Model of Python `str(x or "")` applied to an optional string: a `None`
(or empty) value collapses to the empty string. -/
def pyStrOrEmpty : Option PyStr → PyStr
  | none => []
  | some s => s

/-- `app/ai.py` `is_prediction_success` (identical to `main.py`
`_is_prediction_success`): strip and lowercase both values; empty strings
never match; otherwise plain string equality. -/
def is_prediction_success (predict_winner result : Option PyStr) : Bool :=
  let p := pyLower (pyStrip (pyStrOfOpt predict_winner))
  let r := pyLower (pyStrip (pyStrOfOpt result))
  if p.isEmpty || r.isEmpty then false else p == r

/-- One row of the `ai_eval ⋈ api_football_fixtures` join as the Python code
sees it (`fixture_date` is the fixture kickoff instant in minutes UTC). -/
structure EvalRow where
  fixture_id : ℤ
  predict_winner : Option PyStr
  result : Option PyStr
  confidence : ℚ
  if_bet : Option ℤ
  fixture_date : Option ℤ
  home_name : PyStr
  away_name : PyStr
deriving DecidableEq, Repr

/-- The window filter inside `calc_accuracy`: a row with a `None`
`fixture_date` is always dropped; otherwise each present bound is checked
(`start and dt < start` / `end and dt >= end` skip the row). -/
def in_window (start? end? : Option ℤ) : Option ℤ → Bool
  | none => false
  | some dt =>
      (match start? with
       | none => true
       | some s => decide (s ≤ dt)) &&
      (match end? with
       | none => true
       | some e => decide (dt < e))

/-- Model of Python `round(x, 1)` (banker's rounding, i.e. round half to
even), returning the number of tenths. -/
def python_round_tenths (q : ℚ) : ℤ :=
  let n := ⌊10 * q⌋
  let frac := 10 * q - (n : ℚ)
  if frac < 1 / 2 then n
  else if 1 / 2 < frac then n + 1
  else if n % 2 = 0 then n else n + 1

/-- `app/ai.py` `calc_accuracy` (identical to `main.py` `_calc_accuracy`):
filter rows into the window, return `0.0` on an empty filtered set, else the
success rate in percent rounded to one decimal place. -/
def calc_accuracy (rows : List EvalRow) (start? end? : Option ℤ) : ℚ :=
  let filtered := rows.filter (fun r => in_window start? end? r.fixture_date)
  let total := filtered.length
  if total = 0 then 0
  else
    let success :=
      (filtered.filter (fun r => is_prediction_success r.predict_winner r.result)).length
    (python_round_tenths (((success : ℚ) / (total : ℚ)) * 100) : ℚ) / 10

/-- C1 counterexample: the claim says normalized predicted `"3"` and actual
`"home"` count as a success; the code compares the lowercased strings
directly, so this pair is not a success. -/
theorem is_prediction_success_code_label_counterexample :
    ¬ (is_prediction_success (some "3".data) (some "home".data) = true) := by
  decide

/-- C1 (amended): a record counts as a success iff the stripped, lowercased
predicted and actual outcome strings are nonempty and literally equal; there
is no numeric-code-to-label equivalence. -/
theorem is_prediction_success_iff (p r : PyStr) :
    is_prediction_success (some p) (some r) = true ↔
      (pyLower (pyStrip p) ≠ [] ∧ pyLower (pyStrip p) = pyLower (pyStrip r)) := by
  unfold is_prediction_success pyStrOfOpt
  rcases hp : pyLower (pyStrip p) with _ | ⟨c, cs⟩ <;>
    rcases hr : pyLower (pyStrip r) with _ | ⟨d, ds⟩ <;>
      simp [List.isEmpty, hp, hr]

/-- Witness for C1: evaluating the success predicate at a concrete
case-insensitive match. -/
theorem is_prediction_success_iff_witness :
    is_prediction_success (some " HOME".data) (some "home".data) = true :=
  (is_prediction_success_iff " HOME".data "home".data).mpr (by decide)

/-- C9: `calc_accuracy` returns exactly `0.0` on an empty filtered set and
otherwise an exact multiple of one tenth of a percent; it is a total
function (the empty-set guard is the only place the divisor could vanish,
and no exception path exists in the model). -/
theorem calc_accuracy_total_and_rounded (rows : List EvalRow) (start? end? : Option ℤ) :
    ((rows.filter (fun r => in_window start? end? r.fixture_date)) = [] →
      calc_accuracy rows start? end? = 0)
    ∧ ∃ k : ℤ, calc_accuracy rows start? end? = (k : ℚ) / 10 := by
  constructor
  · intro h
    simp [calc_accuracy, h]
  · by_cases h : (rows.filter (fun r => in_window start? end? r.fixture_date)).length = 0
    · exact ⟨0, by simp [calc_accuracy, h]⟩
    · have hval : calc_accuracy rows start? end? =
          (python_round_tenths
            ((((rows.filter (fun r => in_window start? end? r.fixture_date)).filter
                (fun r => is_prediction_success r.predict_winner r.result)).length : ℚ) /
              (((rows.filter (fun r => in_window start? end? r.fixture_date)).length : ℚ)) * 100) : ℚ)
            / 10 := by
        simp [calc_accuracy, h]
      exact ⟨_, hval⟩

/-- Witness for C9: the empty record set gives accuracy exactly 0. -/
theorem calc_accuracy_total_and_rounded_witness :
    calc_accuracy [] none none = 0 :=
  (calc_accuracy_total_and_rounded [] none none).1 rfl

/-- C10: a record whose joined fixture kickoff is `NULL` is invisible to
`calc_accuracy`, wherever it sits in the record list and whatever the
(possibly absent) window bounds are. -/
theorem calc_accuracy_ignores_null_kickoff (l1 l2 : List EvalRow) (r : EvalRow)
    (h : r.fixture_date = none) (start? end? : Option ℤ) :
    calc_accuracy (l1 ++ r :: l2) start? end? = calc_accuracy (l1 ++ l2) start? end? := by
  unfold calc_accuracy
  simp [List.filter_append, List.filter_cons, h, in_window]

/-- Witness for C10: dropping a null-kickoff record from a concrete list
leaves the accuracy unchanged. -/
theorem calc_accuracy_ignores_null_kickoff_witness :
    calc_accuracy
      [{ fixture_id := 1, predict_winner := some "home".data, result := some "home".data,
         confidence := mkRat 7 10, if_bet := some 1, fixture_date := some 100,
         home_name := "A".data, away_name := "B".data },
       { fixture_id := 2, predict_winner := some "away".data, result := some "home".data,
         confidence := mkRat 7 10, if_bet := some 1, fixture_date := none,
         home_name := "C".data, away_name := "D".data }] none none
    = calc_accuracy
      [{ fixture_id := 1, predict_winner := some "home".data, result := some "home".data,
         confidence := mkRat 7 10, if_bet := some 1, fixture_date := some 100,
         home_name := "A".data, away_name := "B".data }] none none :=
  calc_accuracy_ignores_null_kickoff
    [{ fixture_id := 1, predict_winner := some "home".data, result := some "home".data,
       confidence := mkRat 7 10, if_bet := some 1, fixture_date := some 100,
       home_name := "A".data, away_name := "B".data }] []
    { fixture_id := 2, predict_winner := some "away".data, result := some "home".data,
      confidence := mkRat 7 10, if_bet := some 1, fixture_date := none,
      home_name := "C".data, away_name := "D".data } rfl none none

/-- Helper for substring search: does the second list occur at the head of
the first? -/
def pyAtHead : PyStr → PyStr → Bool
  | _, [] => true
  | [], _ :: _ => false
  | a :: as, b :: bs => a == b && pyAtHead as bs

/-- Model of the Python `needle in hay` substring test. -/
def pyContains (hay needle : PyStr) : Bool :=
  match hay with
  | [] => pyAtHead [] needle
  | c :: t => pyAtHead (c :: t) needle || pyContains t needle

/-- `app/utils.py` `normalize_country` (identical to `main.py`
`_normalize_country`): trim and lowercase the text, then test containment of
the native-language names and flag glyphs but only exact equality with the
two-letter codes. -/
def normalize_country (text : Option PyStr) : Option PyStr :=
  let t := pyLower (pyStrip (pyStrOrEmpty text))
  if t.isEmpty then none
  else if pyContains t "菲律宾".data || t == "ph".data || pyContains t "🇵🇭".data then
    some "PH".data
  else if pyContains t "美国".data || t == "us".data || pyContains t "🇺🇸".data then
    some "US".data
  else none

/-- Modelled from the spec: country-choice classification as the claim
states it, matching when the trimmed, lowercased text CONTAINS a country
name (native-language or English) or a flag glyph. The source function
`normalize_country` is compared against this. -/
def normalize_country_spec (text : Option PyStr) : Option PyStr :=
  let t := pyLower (pyStrip (pyStrOrEmpty text))
  if t.isEmpty then none
  else if pyContains t "菲律宾".data || pyContains t "philippines".data
      || pyContains t "🇵🇭".data then
    some "PH".data
  else if pyContains t "美国".data || pyContains t "united states".data
      || pyContains t "🇺🇸".data then
    some "US".data
  else none

/-- C4 counterexample: the text `philippines` contains the English country
name, so the claim requires classification PH, but the code only accepts
the exact token `ph` and returns none. -/
theorem normalize_country_counterexample :
    normalize_country (some "philippines".data) = none
    ∧ normalize_country_spec (some "philippines".data) = some "PH".data := by
  constructor
  · decide
  · decide

/-- C4 (amended): classification returns PH exactly when the trimmed,
lowercased text contains `菲律宾` or the flag 🇵🇭 or equals the exact token
`ph`; it returns US exactly when it is not a PH match and contains `美国` or
the flag 🇺🇸 or equals `us`; it returns none otherwise. English country
names are not recognized, and code matching is by whole-string equality,
not containment. -/
theorem normalize_country_iff (text : Option PyStr) :
    (normalize_country text = some "PH".data ↔
      (pyContains (pyLower (pyStrip (pyStrOrEmpty text))) "菲律宾".data
        || pyLower (pyStrip (pyStrOrEmpty text)) == "ph".data
        || pyContains (pyLower (pyStrip (pyStrOrEmpty text))) "🇵🇭".data) = true)
    ∧ (normalize_country text = some "US".data ↔
      ((pyContains (pyLower (pyStrip (pyStrOrEmpty text))) "菲律宾".data
        || pyLower (pyStrip (pyStrOrEmpty text)) == "ph".data
        || pyContains (pyLower (pyStrip (pyStrOrEmpty text))) "🇵🇭".data) = false
       ∧ (pyContains (pyLower (pyStrip (pyStrOrEmpty text))) "美国".data
        || pyLower (pyStrip (pyStrOrEmpty text)) == "us".data
        || pyContains (pyLower (pyStrip (pyStrOrEmpty text))) "🇺🇸".data) = true))
    ∧ (normalize_country text = none ↔
      ((pyContains (pyLower (pyStrip (pyStrOrEmpty text))) "菲律宾".data
        || pyLower (pyStrip (pyStrOrEmpty text)) == "ph".data
        || pyContains (pyLower (pyStrip (pyStrOrEmpty text))) "🇵🇭".data) = false
       ∧ (pyContains (pyLower (pyStrip (pyStrOrEmpty text))) "美国".data
        || pyLower (pyStrip (pyStrOrEmpty text)) == "us".data
        || pyContains (pyLower (pyStrip (pyStrOrEmpty text))) "🇺🇸".data) = false)) := by
  have key : ∀ t : PyStr,
      ((if t.isEmpty then (none : Option PyStr)
        else if pyContains t "菲律宾".data || t == "ph".data || pyContains t "🇵🇭".data then
          some "PH".data
        else if pyContains t "美国".data || t == "us".data || pyContains t "🇺🇸".data then
          some "US".data
        else none) = some "PH".data ↔
        (pyContains t "菲律宾".data || t == "ph".data || pyContains t "🇵🇭".data) = true)
      ∧ ((if t.isEmpty then (none : Option PyStr)
        else if pyContains t "菲律宾".data || t == "ph".data || pyContains t "🇵🇭".data then
          some "PH".data
        else if pyContains t "美国".data || t == "us".data || pyContains t "🇺🇸".data then
          some "US".data
        else none) = some "US".data ↔
        ((pyContains t "菲律宾".data || t == "ph".data || pyContains t "🇵🇭".data) = false
         ∧ (pyContains t "美国".data || t == "us".data || pyContains t "🇺🇸".data) = true))
      ∧ ((if t.isEmpty then (none : Option PyStr)
        else if pyContains t "菲律宾".data || t == "ph".data || pyContains t "🇵🇭".data then
          some "PH".data
        else if pyContains t "美国".data || t == "us".data || pyContains t "🇺🇸".data then
          some "US".data
        else none) = none ↔
        ((pyContains t "菲律宾".data || t == "ph".data || pyContains t "🇵🇭".data) = false
         ∧ (pyContains t "美国".data || t == "us".data || pyContains t "🇺🇸".data) = false)) := by
    intro t
    cases t with
    | nil => refine ⟨?_, ?_, ?_⟩ <;> simp <;> decide
    | cons a l =>
      cases hph : (pyContains (a :: l) "菲律宾".data || a :: l == "ph".data
          || pyContains (a :: l) "🇵🇭".data) with
      | true => refine ⟨?_, ?_, ?_⟩ <;> simp
      | false =>
        cases hus : (pyContains (a :: l) "美国".data || a :: l == "us".data
            || pyContains (a :: l) "🇺🇸".data) with
        | true => refine ⟨?_, ?_, ?_⟩ <;> simp
        | false => refine ⟨?_, ?_, ?_⟩ <;> simp
  exact key (pyLower (pyStrip (pyStrOrEmpty text)))

/-- Witness for C4: a concrete text containing the native-language name is
classified PH via the characterization. -/
theorem normalize_country_iff_witness :
    normalize_country (some "我在菲律宾".data) = some "PH".data :=
  (normalize_country_iff (some "我在菲律宾".data)).1.mpr (by decide)

/-- The chunk-send loop of `app/services.py` `forward_chatwoot_to_agent`
(and the identical loops in `app/routes.py` `chatwoot_webhook`): while text
remains, send the first 3000 characters and re-slice the tail. -/
def send_loop_chunks (t : PyStr) : List PyStr :=
  if t = [] then []
  else t.take 3000 :: send_loop_chunks (t.drop 3000)
termination_by t.length
decreasing_by
  rename_i h
  have hpos : 0 < t.length := List.length_pos.mpr h
  simp only [List.length_drop]
  omega

/-- Delivery of one reply segment in `forward_chatwoot_to_agent`: the chunk
loop runs only for texts longer than 3500 characters; anything shorter is
sent as a single message. -/
def forward_reply_chunks (s : PyStr) : List PyStr :=
  if s.length > 3500 then send_loop_chunks s else [s]

theorem send_loop_chunks_length_le (t : PyStr) :
    ∀ c ∈ send_loop_chunks t, c.length ≤ 3000 := by
  have main : ∀ (n : ℕ) (t : PyStr), t.length ≤ n →
      ∀ c ∈ send_loop_chunks t, c.length ≤ 3000 := by
    intro n
    induction n with
    | zero =>
      intro t ht c hc
      have ht0 : t = [] := List.eq_nil_of_length_eq_zero (Nat.le_zero.mp ht)
      subst ht0
      rw [send_loop_chunks] at hc
      simp at hc
    | succ n ih =>
      intro t ht c hc
      rw [send_loop_chunks] at hc
      by_cases h : t = []
      · rw [if_pos h] at hc
        simp at hc
      · rw [if_neg h] at hc
        rcases List.mem_cons.mp hc with hc | hc
        · subst hc
          simp
        · refine ih (t.drop 3000) ?_ c hc
          have hpos : 0 < t.length := List.length_pos.mpr h
          rw [List.length_drop]
          omega
  exact main t.length t le_rfl

theorem send_loop_chunks_flatten (t : PyStr) :
    (send_loop_chunks t).flatten = t := by
  have main : ∀ (n : ℕ) (t : PyStr), t.length ≤ n →
      (send_loop_chunks t).flatten = t := by
    intro n
    induction n with
    | zero =>
      intro t ht
      have ht0 : t = [] := List.eq_nil_of_length_eq_zero (Nat.le_zero.mp ht)
      subst ht0
      rw [send_loop_chunks]
      simp
    | succ n ih =>
      intro t ht
      rw [send_loop_chunks]
      by_cases h : t = []
      · rw [if_pos h, h]
        simp
      · have hpos : 0 < t.length := List.length_pos.mpr h
        have hdrop : (t.drop 3000).length ≤ n := by
          rw [List.length_drop]
          omega
        rw [if_neg h, List.flatten_cons, ih (t.drop 3000) hdrop,
          List.take_append_drop]
  exact main t.length t le_rfl

/-- C6 counterexample: a 3200-character reply is below the 3500 trigger, so
it is delivered as one chunk of 3200 characters, exceeding the
3000-character bound the claim states. -/
theorem forward_reply_chunks_counterexample :
    ¬ (∀ c ∈ forward_reply_chunks (List.replicate 3200 'a'), c.length ≤ 3000) := by
  have hch : forward_reply_chunks (List.replicate 3200 'a')
      = [List.replicate 3200 'a'] := by
    rw [forward_reply_chunks,
      if_neg (by rw [List.length_replicate]; omega)]
  intro h
  have hlen := h (List.replicate 3200 'a')
    (by rw [hch]; exact List.mem_singleton.mpr rfl)
  rw [List.length_replicate] at hlen
  omega

/-- C6 (amended): replies of more than 3500 characters are split into
3000-character chunks obtained by repeatedly re-slicing the tail, and the
chunks concatenate back to the original text; replies of at most 3500
characters are delivered as a single message, which may therefore be up to
3500 (not 3000) characters long. -/
theorem forward_reply_chunks_spec (s : PyStr) :
    (s.length ≤ 3500 → forward_reply_chunks s = [s])
    ∧ (3500 < s.length → ∀ c ∈ forward_reply_chunks s, c.length ≤ 3000)
    ∧ (forward_reply_chunks s).flatten = s := by
  refine ⟨?_, ?_, ?_⟩
  · intro h
    rw [forward_reply_chunks, if_neg (by omega)]
  · intro h c hc
    rw [forward_reply_chunks, if_pos (by omega)] at hc
    exact send_loop_chunks_length_le s c hc
  · by_cases h : s.length > 3500
    · rw [forward_reply_chunks, if_pos h]
      exact send_loop_chunks_flatten s
    · rw [forward_reply_chunks, if_neg h]
      simp

/-- Witness for C6: a short concrete reply is delivered unchunked, and a
long one is re-assembled from its chunks. -/
theorem forward_reply_chunks_spec_witness :
    forward_reply_chunks (List.replicate 100 'a') = [List.replicate 100 'a']
    ∧ (forward_reply_chunks (List.replicate 4000 'a')).flatten
        = List.replicate 4000 'a' :=
  ⟨(forward_reply_chunks_spec (List.replicate 100 'a')).1
      (by rw [List.length_replicate]; omega),
   (forward_reply_chunks_spec (List.replicate 4000 'a')).2.2⟩

/-- A row of the `users` table as the upserts see it. -/
structure UserRow where
  external_id : String
  username : Option String
  chatroom_id : Option String
  country : Option String
deriving DecidableEq, Repr

/-- SQL `COALESCE` on two nullable text values. -/
def coalesce (a b : Option String) : Option String :=
  match a with
  | some x => some x
  | none => b

/-- The conflict branch of the `store_message` upsert in `app/services.py`:
`username = EXCLUDED.username` (unconditional) and
`chatroom_id = COALESCE(EXCLUDED.chatroom_id, users.chatroom_id)`. -/
def store_message_user_upsert (u : UserRow) (username chatroom_id : Option String) :
    UserRow :=
  { u with username := username,
           chatroom_id := coalesce chatroom_id u.chatroom_id }

/-- The conflict branch of the `set_user_country` upsert in
`app/services.py`: `username = COALESCE(EXCLUDED.username, users.username)`,
`chatroom_id = COALESCE(EXCLUDED.chatroom_id, users.chatroom_id)`,
`country = EXCLUDED.country`. -/
def set_user_country_user_upsert (u : UserRow) (username chatroom_id : Option String)
    (country : String) : UserRow :=
  { u with username := coalesce username u.username,
           chatroom_id := coalesce chatroom_id u.chatroom_id,
           country := some country }

/-- C7 counterexample: on the first-inbound-message upsert a `NULL` incoming
display name overwrites a stored name, contradicting the claim that a null
incoming name leaves the stored field unchanged. -/
theorem store_message_upsert_counterexample :
    ¬ ((store_message_user_upsert
          { external_id := "42", username := some "Alice",
            chatroom_id := some "chat-1", country := some "PH" }
          none none).username
        = some "Alice") := by
  decide

/-- C7 (amended): the country-selection upsert overwrites display name and
chatroom id only when the incoming value is non-null and always overwrites
country; the message-store upsert protects only chatroom id that way, while
it overwrites the display name unconditionally (a null incoming name nulls
the stored name); external id and the untouched fields are preserved. -/
theorem user_upsert_merge_semantics (u : UserRow) (n c : Option String)
    (co nm ch : String) :
    (set_user_country_user_upsert u (some nm) (some ch) co).username = some nm
    ∧ (set_user_country_user_upsert u (some nm) (some ch) co).chatroom_id = some ch
    ∧ (set_user_country_user_upsert u none c co).username = u.username
    ∧ (set_user_country_user_upsert u n none co).chatroom_id = u.chatroom_id
    ∧ (set_user_country_user_upsert u n c co).country = some co
    ∧ (set_user_country_user_upsert u n c co).external_id = u.external_id
    ∧ (store_message_user_upsert u n c).username = n
    ∧ (store_message_user_upsert u n none).chatroom_id = u.chatroom_id
    ∧ (store_message_user_upsert u n (some ch)).chatroom_id = some ch
    ∧ (store_message_user_upsert u n c).country = u.country
    ∧ (store_message_user_upsert u n c).external_id = u.external_id := by
  refine ⟨rfl, rfl, rfl, ?_, rfl, rfl, rfl, rfl, rfl, rfl, rfl⟩
  cases n <;> rfl

/-- The key of the `push_log` ledger: `(user_id, push_date, push_type)`,
backed by the unique index `uniq_push_log`. The push date is the local
calendar date as a day number (`local_now.date()`). -/
structure PushKey where
  user_id : ℤ
  push_date : ℤ
  push_type : String
deriving DecidableEq, Repr

/-- `app/push.py` `_claim_push`: `INSERT ... ON CONFLICT DO NOTHING
RETURNING id` against the unique ledger key — at the storage layer this is
a single atomic insert-if-absent that reports whether a row was created.
Returns the success flag and the new ledger state. -/
def claim_push (ledger : List PushKey) (k : PushKey) : Bool × List PushKey :=
  if k ∈ ledger then (false, ledger) else (true, k :: ledger)

/-- A digest message sent by the scheduler loop. -/
structure PushMsg where
  user_id : ℤ
  push_type : String
deriving DecidableEq, Repr

/-- `local_now.date()` as a day number. -/
def local_date (m : ℤ) : ℤ := Int.fdiv m 1440

/-- `local_now.hour` of a minute-precision instant. -/
def local_hour (m : ℤ) : ℤ := Int.fdiv (Int.emod m 1440) 60

/-- `local_now.minute` of a minute-precision instant. -/
def local_minute (m : ℤ) : ℤ := Int.emod m 60

/-- The slot logic of the per-user body of `run_daily_push_scheduler`,
expressed over the already-shifted local instant: at local 11:00 claim the
`yesterday` slot for the local date and send the digest only when the claim
succeeds; likewise at local 20:00 for the `pick` slot. Returns the updated
ledger and the digests sent. -/
def sched_user_core (ledger : List PushKey) (local_now user_id : ℤ) :
    List PushKey × List PushMsg :=
  let step1 :=
    if local_hour local_now = 11 ∧ local_minute local_now = 0 then
      match claim_push ledger ⟨user_id, local_date local_now, "yesterday"⟩ with
      | (true, l) => (l, [(⟨user_id, "yesterday"⟩ : PushMsg)])
      | (false, l) => (l, ([] : List PushMsg))
    else (ledger, ([] : List PushMsg))
  if local_hour local_now = 20 ∧ local_minute local_now = 0 then
    match claim_push step1.1 ⟨user_id, local_date local_now, "pick"⟩ with
    | (true, l) => (l, step1.2 ++ [(⟨user_id, "pick"⟩ : PushMsg)])
    | (false, l) => (l, step1.2)
  else step1

/-- The per-user body of `app/push.py` `run_daily_push_scheduler`: shift
`now` by the country offset read from configuration, then run the slot
logic. -/
def sched_user_step (offsets : String → ℤ) (ledger : List PushKey)
    (now_utc user_id : ℤ) (country : String) : List PushKey × List PushMsg :=
  sched_user_core ledger (now_utc + 60 * offsets country) user_id

theorem claim_push_mem (l : List PushKey) (k : PushKey) :
    k ∈ (claim_push l k).2 := by
  unfold claim_push
  split
  · assumption
  · exact List.mem_cons_self _ _

theorem claim_push_mem_mono (l : List PushKey) (k k2 : PushKey) (h : k ∈ l) :
    k ∈ (claim_push l k2).2 := by
  unfold claim_push
  split
  · exact h
  · exact List.mem_cons_of_mem _ h

theorem claim_push_of_mem (l : List PushKey) (k : PushKey) (h : k ∈ l) :
    claim_push l k = (false, l) := by
  rw [claim_push, if_pos h]

theorem sched_user_core_second_run (ledger : List PushKey)
    (local_now user_id : ℤ) :
    (sched_user_core (sched_user_core ledger local_now user_id).1
      local_now user_id).2 = [] := by
  by_cases h11 : local_hour local_now = 11 ∧ local_minute local_now = 0
  · have h20 : ¬ (local_hour local_now = 20 ∧ local_minute local_now = 0) := by
      rintro ⟨h20h, _⟩
      rw [h20h] at h11
      exact absurd h11.1 (by norm_num)
    rcases hb : claim_push ledger ⟨user_id, local_date local_now, "yesterday"⟩
      with ⟨b, l1⟩
    have hky : (⟨user_id, local_date local_now, "yesterday"⟩ : PushKey) ∈ l1 := by
      have h := claim_push_mem ledger ⟨user_id, local_date local_now, "yesterday"⟩
      rw [hb] at h
      exact h
    have hfst : (sched_user_core ledger local_now user_id).1 = l1 := by
      rw [sched_user_core]
      simp only [if_pos h11, if_neg h20, hb]
      cases b <;> rfl
    rw [hfst, sched_user_core]
    simp only [if_pos h11, if_neg h20,
      claim_push_of_mem l1 ⟨user_id, local_date local_now, "yesterday"⟩ hky]
  · by_cases h20 : local_hour local_now = 20 ∧ local_minute local_now = 0
    · rcases hb : claim_push ledger ⟨user_id, local_date local_now, "pick"⟩
        with ⟨b, l1⟩
      have hkp : (⟨user_id, local_date local_now, "pick"⟩ : PushKey) ∈ l1 := by
        have h := claim_push_mem ledger ⟨user_id, local_date local_now, "pick"⟩
        rw [hb] at h
        exact h
      have hfst : (sched_user_core ledger local_now user_id).1 = l1 := by
        rw [sched_user_core]
        simp only [if_neg h11, if_pos h20, hb]
        cases b <;> rfl
      rw [hfst, sched_user_core]
      simp only [if_neg h11, if_pos h20,
        claim_push_of_mem l1 ⟨user_id, local_date local_now, "pick"⟩ hkp]
    · rw [sched_user_core, sched_user_core]
      simp only [if_neg h11, if_neg h20]

/-- C2: the ledger claim is an atomic insert-if-absent; of two successive
claims of a fresh key exactly the first succeeds and the ledger then holds
exactly one row for that key; the scheduler sends a digest only after a
successful claim, so re-running the same user step at the same instant (an
overlapping tick or a second process instance, serialized by the store)
sends nothing a second time. -/
theorem push_claim_exactly_once (ledger : List PushKey) (k : PushKey)
    (hk : k ∉ ledger) :
    (claim_push ledger k).1 = true
    ∧ (claim_push (claim_push ledger k).2 k).1 = false
    ∧ ((claim_push (claim_push ledger k).2 k).2.count k = 1)
    ∧ ∀ (offsets : String → ℤ) (now_utc user_id : ℤ) (country : String),
        (sched_user_step offsets
          (sched_user_step offsets ledger now_utc user_id country).1
          now_utc user_id country).2 = [] := by
  have h1 : claim_push ledger k = (true, k :: ledger) := by
    rw [claim_push, if_neg hk]
  refine ⟨?_, ?_, ?_, ?_⟩
  · rw [h1]
  · rw [h1, claim_push_of_mem (k :: ledger) k (List.mem_cons_self k ledger)]
  · rw [h1, claim_push_of_mem (k :: ledger) k (List.mem_cons_self k ledger)]
    show ((k :: ledger).count k = 1)
    rw [List.count_cons_self, List.count_eq_zero.mpr hk]
  · intro offsets now_utc user_id country
    exact sched_user_core_second_run ledger (now_utc + 60 * offsets country) user_id

/-- Witness for C2: claiming `(user 42, day 19792, pick)` twice on an empty
ledger succeeds exactly once, and a second scheduler pass at local 20:00
sends nothing. -/
theorem push_claim_exactly_once_witness :
    (claim_push [] ⟨42, 19792, "pick"⟩).1 = true
    ∧ (claim_push (claim_push [] ⟨42, 19792, "pick"⟩).2 ⟨42, 19792, "pick"⟩).1 = false
    ∧ (sched_user_step (fun _ => 0)
        (sched_user_step (fun _ => 0) [] 1200 42 "US").1 1200 42 "US").2 = [] := by
  have h := push_claim_exactly_once [] ⟨42, 19792, "pick"⟩ (List.not_mem_nil _)
  exact ⟨h.1, h.2.1, h.2.2.2 (fun _ => 0) 1200 42 "US"⟩

/-- A row of the `agent_threads` table. `started_at`, `last_activity_at`
and `expires_at` are minute-precision UTC instants (always set by the code
paths modelled here). -/
structure ThreadRow where
  id : ℕ
  platform : PyStr
  chatroom_id : PyStr
  agent_thread_id : PyStr
  started_at : ℤ
  last_activity_at : ℤ
  expires_at : ℤ
  status : PyStr
deriving DecidableEq, Repr

/-- The `agent_threads` table plus its `BIGSERIAL` id counter. -/
structure ThreadDB where
  rows : List ThreadRow
  next_id : ℕ
deriving DecidableEq, Repr

/-- The thread-related configuration read in `app/config.py`
(`THREAD_TTL_MINUTES_TELEGRAM` default 30, `THREAD_TTL_MINUTES_CHATWOOT`
default 720, `THREAD_MAX_AGE_DAYS` default 7). -/
structure ThreadCfg where
  ttl_minutes_telegram : ℤ
  ttl_minutes_chatwoot : ℤ
  max_age_days : ℤ
deriving DecidableEq, Repr

/-- `app/services.py` `_get_thread_ttl_minutes`: the telegram platform gets
its own TTL, everything else the chatwoot TTL. -/
def get_thread_ttl_minutes (cfg : ThreadCfg) (platform : PyStr) : ℤ :=
  if pyLower (pyStrip platform) == "telegram".data then cfg.ttl_minutes_telegram
  else cfg.ttl_minutes_chatwoot

/-- The `WHERE platform = %s AND chatroom_id = %s AND status = 'active'`
filter shared by `find_active_thread` and `_touch_thread`. -/
def thread_matches (platform chatroom_id : PyStr) (r : ThreadRow) : Bool :=
  r.platform == platform && r.chatroom_id == chatroom_id && r.status == "active".data

/-- `ORDER BY id DESC LIMIT 1`: the matching row with the largest id. -/
def latest_by_id (l : List ThreadRow) : Option ThreadRow :=
  l.foldl (fun acc r =>
    match acc with
    | none => some r
    | some a => if a.id < r.id then some r else some a) none

/-- `app/services.py` `find_active_thread`: read the most recent active row
for the pair; report not-found when there is none, when the row is older
than the maximum age (`(now - started_at).days >= max_days`), or when
`expires_at` is not strictly in the future. Performs no writes. -/
def find_active_thread (cfg : ThreadCfg) (db : ThreadDB) (now : ℤ)
    (platform chatroom_id : PyStr) : Option PyStr :=
  match latest_by_id (db.rows.filter (thread_matches platform chatroom_id)) with
  | none => none
  | some r =>
    if Int.fdiv (now - r.started_at) 1440 ≥ cfg.max_age_days then none
    else if r.expires_at > now then some r.agent_thread_id
    else none

/-- `app/services.py` `_touch_thread`: renew `last_activity_at` and
`expires_at = now + TTL(platform)` on the active rows for the pair with the
given remote id. -/
def touch_thread (cfg : ThreadCfg) (db : ThreadDB) (now : ℤ)
    (platform chatroom_id agent_thread_id : PyStr) : ThreadDB :=
  let expires := now + get_thread_ttl_minutes cfg platform
  { db with rows := db.rows.map (fun r =>
      if thread_matches platform chatroom_id r
          && r.agent_thread_id == agent_thread_id then
        { r with last_activity_at := now, expires_at := expires }
      else r) }

/-- `app/services.py` `ensure_agent_thread`: reuse and renew an active
thread when one is found; otherwise call the remote thread-creation
endpoint (its outcome is the `remote_thread` argument) and, on success,
insert a fresh active row with `started_at = now` and
`expires_at = now + TTL(platform)`. The returned triple is (returned remote
id, new store state, whether the remote creation endpoint was invoked). -/
def ensure_agent_thread (cfg : ThreadCfg) (db : ThreadDB) (now : ℤ)
    (platform chatroom_id : PyStr) (remote_thread : Option PyStr) :
    Option PyStr × ThreadDB × Bool :=
  match find_active_thread cfg db now platform chatroom_id with
  | some tid => (some tid, touch_thread cfg db now platform chatroom_id tid, false)
  | none =>
    match remote_thread with
    | none => (none, db, true)
    | some new_tid =>
      let expires := now + get_thread_ttl_minutes cfg platform
      (some new_tid,
       { rows := db.rows ++
          [{ id := db.next_id, platform := platform, chatroom_id := chatroom_id,
             agent_thread_id := new_tid, started_at := now, last_activity_at := now,
             expires_at := expires, status := "active".data }],
         next_id := db.next_id + 1 },
       true)

theorem list_map_fixed (l : List ThreadRow) (f : ThreadRow → ThreadRow)
    (h : ∀ x ∈ l, f x = x) : l.map f = l := by
  induction l with
  | nil => rfl
  | cons a t ih =>
    rw [List.map_cons, h a (List.mem_cons_self a t),
      ih (fun x hx => h x (List.mem_cons_of_mem a hx))]

/-- Convenience constructor for an active `agent_threads` row. -/
def mk_thread_row (idn : ℕ) (platform chatroom_id rid : PyStr)
    (ts tl te : ℤ) : ThreadRow :=
  { id := idn, platform := platform, chatroom_id := chatroom_id,
    agent_thread_id := rid, started_at := ts, last_activity_at := tl,
    expires_at := te, status := "active".data }

theorem thread_matches_mk (platform chatroom_id rid : PyStr) (idn : ℕ)
    (ts tl te : ℤ) :
    thread_matches platform chatroom_id
      (mk_thread_row idn platform chatroom_id rid ts tl te) = true := by
  simp [thread_matches, mk_thread_row]

/-- C5: with no prior thread for the pair, the first `ensure_agent_thread`
call invokes the remote creation endpoint exactly once and inserts exactly
one active row with `expires_at = now + TTL(platform)`, and a second call
within the TTL (and the maximum age) returns the same remote id, renews
`expires_at`, does not invoke the endpoint again and inserts no new row. -/
theorem ensure_agent_thread_create_then_renew
    (cfg : ThreadCfg) (db : ThreadDB) (t0 t1 : ℤ) (platform chatroom_id rid : PyStr)
    (hempty : db.rows.filter (thread_matches platform chatroom_id) = [])
    (h1 : t1 < t0 + get_thread_ttl_minutes cfg platform)
    (h2 : Int.fdiv (t1 - t0) 1440 < cfg.max_age_days) :
    (ensure_agent_thread cfg db t0 platform chatroom_id (some rid)).1 = some rid
    ∧ (ensure_agent_thread cfg db t0 platform chatroom_id (some rid)).2.2 = true
    ∧ (ensure_agent_thread cfg db t0 platform chatroom_id (some rid)).2.1.rows.length
        = db.rows.length + 1
    ∧ (ensure_agent_thread cfg db t0 platform chatroom_id (some rid)).2.1.rows.filter
          (thread_matches platform chatroom_id)
        = [mk_thread_row db.next_id platform chatroom_id rid t0 t0
            (t0 + get_thread_ttl_minutes cfg platform)]
    ∧ (ensure_agent_thread cfg
          (ensure_agent_thread cfg db t0 platform chatroom_id (some rid)).2.1
          t1 platform chatroom_id none).1 = some rid
    ∧ (ensure_agent_thread cfg
          (ensure_agent_thread cfg db t0 platform chatroom_id (some rid)).2.1
          t1 platform chatroom_id none).2.2 = false
    ∧ (ensure_agent_thread cfg
          (ensure_agent_thread cfg db t0 platform chatroom_id (some rid)).2.1
          t1 platform chatroom_id none).2.1.rows.length
        = (ensure_agent_thread cfg db t0 platform chatroom_id (some rid)).2.1.rows.length
    ∧ (ensure_agent_thread cfg
          (ensure_agent_thread cfg db t0 platform chatroom_id (some rid)).2.1
          t1 platform chatroom_id none).2.1.rows.filter
          (thread_matches platform chatroom_id)
        = [mk_thread_row db.next_id platform chatroom_id rid t0 t1
            (t1 + get_thread_ttl_minutes cfg platform)] := by
  have hfind1 : find_active_thread cfg db t0 platform chatroom_id = none := by
    unfold find_active_thread
    rw [hempty]
    rfl
  have he1 : ensure_agent_thread cfg db t0 platform chatroom_id (some rid)
      = (some rid,
         { rows := db.rows ++ [mk_thread_row db.next_id platform chatroom_id rid t0 t0
              (t0 + get_thread_ttl_minutes cfg platform)],
           next_id := db.next_id + 1 }, true) := by
    unfold ensure_agent_thread
    rw [hfind1]
    rfl
  have hfilter1 : (db.rows ++ [mk_thread_row db.next_id platform chatroom_id rid t0 t0
        (t0 + get_thread_ttl_minutes cfg platform)]).filter
        (thread_matches platform chatroom_id)
      = [mk_thread_row db.next_id platform chatroom_id rid t0 t0
          (t0 + get_thread_ttl_minutes cfg platform)] := by
    rw [List.filter_append, hempty]
    simp [thread_matches_mk]
  have hfind2 : find_active_thread cfg
      { rows := db.rows ++ [mk_thread_row db.next_id platform chatroom_id rid t0 t0
            (t0 + get_thread_ttl_minutes cfg platform)],
        next_id := db.next_id + 1 } t1 platform chatroom_id = some rid := by
    unfold find_active_thread
    show (match latest_by_id ((db.rows
        ++ [mk_thread_row db.next_id platform chatroom_id rid t0 t0
              (t0 + get_thread_ttl_minutes cfg platform)]).filter
          (thread_matches platform chatroom_id)) with
      | none => none
      | some r =>
        if Int.fdiv (t1 - r.started_at) 1440 ≥ cfg.max_age_days then none
        else if r.expires_at > t1 then some r.agent_thread_id
        else none) = some rid
    rw [hfilter1]
    show (if Int.fdiv (t1 - t0) 1440 ≥ cfg.max_age_days then none
      else if t0 + get_thread_ttl_minutes cfg platform > t1 then some rid
      else none) = some rid
    rw [if_neg (not_le.mpr h2), if_pos h1]
  have hmap_old : ∀ r ∈ db.rows,
      (if thread_matches platform chatroom_id r && r.agent_thread_id == rid then
        { r with last_activity_at := t1,
                 expires_at := t1 + get_thread_ttl_minutes cfg platform }
      else r) = r := by
    intro r hr
    have hfalse : thread_matches platform chatroom_id r = false :=
      Bool.eq_false_iff.mpr (List.filter_eq_nil_iff.mp hempty r hr)
    rw [hfalse]
    rfl
  have hmapeq : (db.rows ++ [mk_thread_row db.next_id platform chatroom_id rid t0 t0
        (t0 + get_thread_ttl_minutes cfg platform)]).map
        (fun r =>
          if thread_matches platform chatroom_id r && r.agent_thread_id == rid then
            { r with last_activity_at := t1,
                     expires_at := t1 + get_thread_ttl_minutes cfg platform }
          else r)
      = db.rows ++ [mk_thread_row db.next_id platform chatroom_id rid t0 t1
          (t1 + get_thread_ttl_minutes cfg platform)] := by
    rw [List.map_append, list_map_fixed db.rows _ hmap_old]
    congr 1
    rw [List.map_cons, List.map_nil, thread_matches_mk]
    simp [mk_thread_row]
  have htouch : touch_thread cfg
      { rows := db.rows ++ [mk_thread_row db.next_id platform chatroom_id rid t0 t0
            (t0 + get_thread_ttl_minutes cfg platform)],
        next_id := db.next_id + 1 } t1 platform chatroom_id rid
      = { rows := db.rows ++ [mk_thread_row db.next_id platform chatroom_id rid t0 t1
            (t1 + get_thread_ttl_minutes cfg platform)],
          next_id := db.next_id + 1 } := by
    unfold touch_thread
    exact congrArg
      (fun l => ({ rows := l, next_id := db.next_id + 1 } : ThreadDB)) hmapeq
  have he2 : ensure_agent_thread cfg
      { rows := db.rows ++ [mk_thread_row db.next_id platform chatroom_id rid t0 t0
            (t0 + get_thread_ttl_minutes cfg platform)],
        next_id := db.next_id + 1 } t1 platform chatroom_id none
      = (some rid,
         { rows := db.rows ++ [mk_thread_row db.next_id platform chatroom_id rid t0 t1
              (t1 + get_thread_ttl_minutes cfg platform)],
           next_id := db.next_id + 1 }, false) := by
    unfold ensure_agent_thread
    rw [hfind2]
    show (some rid, touch_thread cfg
      { rows := db.rows ++ [mk_thread_row db.next_id platform chatroom_id rid t0 t0
            (t0 + get_thread_ttl_minutes cfg platform)],
        next_id := db.next_id + 1 } t1 platform chatroom_id rid, false) = _
    rw [htouch]
  refine ⟨by rw [he1], by rw [he1], ?_, ?_, ?_, ?_, ?_, ?_⟩
  · rw [he1]
    simp
  · rw [he1]
    exact hfilter1
  · rw [he1, he2]
  · rw [he1, he2]
  · rw [he1, he2]
    simp
  · rw [he1, he2]
    show (db.rows ++ [mk_thread_row db.next_id platform chatroom_id rid t0 t1
        (t1 + get_thread_ttl_minutes cfg platform)]).filter
        (thread_matches platform chatroom_id)
      = [mk_thread_row db.next_id platform chatroom_id rid t0 t1
          (t1 + get_thread_ttl_minutes cfg platform)]
    rw [List.filter_append, hempty]
    simp [thread_matches_mk]

/-- Witness for C5: a concrete double call on an empty store for the
telegram platform with the default TTLs. -/
theorem ensure_agent_thread_create_then_renew_witness :
    (ensure_agent_thread ⟨30, 720, 7⟩ ⟨[], 0⟩ 0 "telegram".data "123".data
      (some "tid-1".data)).1 = some "tid-1".data
    ∧ (ensure_agent_thread ⟨30, 720, 7⟩
        (ensure_agent_thread ⟨30, 720, 7⟩ ⟨[], 0⟩ 0 "telegram".data "123".data
          (some "tid-1".data)).2.1
        10 "telegram".data "123".data none).1 = some "tid-1".data
    ∧ (ensure_agent_thread ⟨30, 720, 7⟩
        (ensure_agent_thread ⟨30, 720, 7⟩ ⟨[], 0⟩ 0 "telegram".data "123".data
          (some "tid-1".data)).2.1
        10 "telegram".data "123".data none).2.2 = false := by
  have h := ensure_agent_thread_create_then_renew ⟨30, 720, 7⟩ ⟨[], 0⟩ 0 10
    "telegram".data "123".data "tid-1".data rfl (by decide) (by decide)
  exact ⟨h.1, h.2.2.2.2.1, h.2.2.2.2.2.1⟩

/-- The query window of `app/ai.py` `ai_pick_reply`: `start_utc = now_utc`,
`end_utc = tomorrow_local_day - offset + 2 days`. -/
def pick_window_ai_pick_reply (now_utc offset : ℤ) : ℤ × ℤ :=
  let local_now := now_utc + 60 * offset
  let local_day := 1440 * Int.fdiv local_now 1440
  let tomorrow_local_day := local_day + 1440
  (now_utc, tomorrow_local_day - 60 * offset + 2880)

/-- The query window of `app/ai.py` `ai_pick_text_for_country` (same
computation as `ai_pick_reply`). -/
def pick_window_ai_pick_text_for_country (now_utc offset : ℤ) : ℤ × ℤ :=
  let local_now := now_utc + 60 * offset
  let local_day := 1440 * Int.fdiv local_now 1440
  let tomorrow_local_day := local_day + 1440
  (now_utc, tomorrow_local_day - 60 * offset + 2880)

/-- The query window of the superseded `main.py` `_ai_pick_reply`:
`start_utc = tomorrow_local_day - offset`, `end_utc = start_utc + 1 day`. -/
def pick_window_main_ai_pick_reply (now_utc offset : ℤ) : ℤ × ℤ :=
  let local_now := now_utc + 60 * offset
  let local_day := 1440 * Int.fdiv local_now 1440
  let tomorrow_local_day := local_day + 1440
  (tomorrow_local_day - 60 * offset, tomorrow_local_day - 60 * offset + 1440)

/-- Modelled from the spec: the claimed canonical pick window, the half-open
UTC interval from the next local midnight through the following full local
day. -/
def pick_window_spec (now_utc offset : ℤ) : ℤ × ℤ :=
  let next_local_midnight := 1440 * Int.fdiv (now_utc + 60 * offset) 1440 + 1440 - 60 * offset
  (next_local_midnight, next_local_midnight + 1440)

/-- The row filter of the pick queries: recommendation flag set
(`COALESCE(if_bet, 0) = 1`), `confidence > 0.6`, kickoff inside the
half-open window. -/
def pick_filter (w : ℤ × ℤ) (r : EvalRow) : Bool :=
  r.if_bet.getD 0 == 1 && decide (r.confidence > mkRat 6 10) &&
  (match r.fixture_date with
   | none => false
   | some d => decide (w.1 ≤ d) && decide (d < w.2))

/-- The record selection of `app/ai.py` `ai_pick_reply` (the live pick
digest): filter the joined rows by flag, confidence and its window. -/
def ai_pick_rows (db : List EvalRow) (now_utc offset : ℤ) : List EvalRow :=
  db.filter (pick_filter (pick_window_ai_pick_reply now_utc offset))

/-- C3 counterexample: with offset 0 and `now` at 01:40 of day 0, a flagged
high-confidence record kicking off at 03:20 the same day is selected by the
code (whose window starts at `now`), but lies outside the claimed window
that starts at the next local midnight, so the selections differ. -/
theorem ai_pick_window_counterexample :
    ai_pick_rows
      [{ fixture_id := 9, predict_winner := some "home".data, result := none,
         confidence := mkRat 7 10, if_bet := some 1, fixture_date := some 200,
         home_name := "A".data, away_name := "B".data }] 100 0
    ≠ [{ fixture_id := 9, predict_winner := some "home".data, result := none,
         confidence := mkRat 7 10, if_bet := some 1, fixture_date := some 200,
         home_name := "A".data, away_name := "B".data }].filter
        (pick_filter (pick_window_spec 100 0)) := by
  decide

/-- C3 (amended): both live pick paths in `app/ai.py` share the same window
and select exactly the recommendation-flagged, confidence > 0.6 records
with kickoff in `[now, next local midnight + 2 days)`; only the superseded
`main.py` `_ai_pick_reply` uses the claimed
`[next local midnight, next local midnight + 1 day)` window. -/
theorem ai_pick_rows_spec (db : List EvalRow) (now_utc offset : ℤ) (r : EvalRow) :
    pick_window_ai_pick_text_for_country now_utc offset
        = pick_window_ai_pick_reply now_utc offset
    ∧ pick_window_main_ai_pick_reply now_utc offset = pick_window_spec now_utc offset
    ∧ (r ∈ ai_pick_rows db now_utc offset ↔
        r ∈ db ∧ r.if_bet.getD 0 = 1 ∧ r.confidence > mkRat 6 10 ∧
        ∃ d, r.fixture_date = some d ∧ now_utc ≤ d ∧
          d < 1440 * Int.fdiv (now_utc + 60 * offset) 1440 + 1440 - 60 * offset + 2880) := by
  refine ⟨rfl, rfl, ?_⟩
  rw [ai_pick_rows, List.mem_filter]
  cases hd : r.fixture_date with
  | none => simp [pick_filter, hd]
  | some d => simp [pick_filter, pick_window_ai_pick_reply, hd, and_assoc]

/-- Witness for C3: a flagged high-confidence record kicking off two hours
after `now` is selected by the live pick digest. -/
theorem ai_pick_rows_spec_witness :
    ({ fixture_id := 9, predict_winner := some "home".data, result := none,
       confidence := mkRat 7 10, if_bet := some 1, fixture_date := some 220,
       home_name := "A".data, away_name := "B".data } : EvalRow)
    ∈ ai_pick_rows
      [{ fixture_id := 9, predict_winner := some "home".data, result := none,
         confidence := mkRat 7 10, if_bet := some 1, fixture_date := some 220,
         home_name := "A".data, away_name := "B".data }] 100 0 :=
  (ai_pick_rows_spec
    [{ fixture_id := 9, predict_winner := some "home".data, result := none,
       confidence := mkRat 7 10, if_bet := some 1, fixture_date := some 220,
       home_name := "A".data, away_name := "B".data }] 100 0
    { fixture_id := 9, predict_winner := some "home".data, result := none,
      confidence := mkRat 7 10, if_bet := some 1, fixture_date := some 220,
      home_name := "A".data, away_name := "B".data }).2.2.mpr
    ⟨List.mem_singleton.mpr rfl, rfl, by decide, 220, rfl, by decide, by decide⟩

/-- The SQL regex `^-?\d+$`: an optional leading minus followed by at least
one digit. -/
def is_int_string (s : PyStr) : Bool :=
  match s with
  | [] => false
  | '-' :: rest => !rest.isEmpty && rest.all Char.isDigit
  | l => l.all Char.isDigit

/-- Value of a digit string. -/
def digits_val (l : List Char) : ℤ :=
  l.foldl (fun acc c => 10 * acc + ((c.toNat : ℤ) - 48)) 0

/-- The SQL cast `(text)::int` on a string already known to match the
integer regex. -/
def sql_int_of_string (s : PyStr) : ℤ :=
  match s with
  | '-' :: rest => - digits_val rest
  | l => digits_val l

/-- The `success` expression of the yesterday-digest SQL: both values match
the integer regex and cast to equal integers; a SQL `NULL` on either side
makes the `CASE` yield 0. -/
def sql_numeric_success (p r : Option PyStr) : Bool :=
  match p, r with
  | some ps, some rs =>
      is_int_string ps && is_int_string rs
        && sql_int_of_string ps == sql_int_of_string rs
  | _, _ => false

/-- The shared `WHERE` clause of both yesterday-digest SQL statements:
`COALESCE(if_bet, 0) = 1`, `confidence > 0.6`, `result IS NOT NULL`,
kickoff inside the local-yesterday window. -/
def yesterday_filter (y_start y_end : ℤ) (r : EvalRow) : Bool :=
  r.if_bet.getD 0 == 1 && decide (r.confidence > mkRat 6 10) && r.result.isSome &&
  (match r.fixture_date with
   | none => false
   | some d => decide (y_start ≤ d) && decide (d < y_end))

/-- Postgres `ROUND(numeric, 1)` (round half away from zero), returning the
number of tenths. -/
def sql_round_half_up_tenths (q : ℚ) : ℤ :=
  if 0 ≤ q then ⌊10 * q + 1 / 2⌋ else -⌊10 * (-q) + 1 / 2⌋

/-- The row query of `app/ai.py` `ai_yesterday_text_for_country` (and
`ai_yesterday_reply`): each qualifying joined row yields
`(home_name, away_name, success)`. The SQL orders by kickoff ascending; the
consistency property below is ordering-independent, and the concrete
witness lists rows already in kickoff order. -/
def ai_yesterday_rows (db : List EvalRow) (y_start y_end : ℤ) :
    List (PyStr × PyStr × Bool) :=
  (db.filter (yesterday_filter y_start y_end)).map
    (fun r => (r.home_name, r.away_name, sql_numeric_success r.predict_winner r.result))

/-- The aggregate query of the same functions:
`COALESCE(ROUND(SUM(success)::numeric / NULLIF(COUNT(1), 0) * 100, 1), 0.0)`
over the identically filtered rows, in tenths of a percent. -/
def ai_yesterday_acc_tenths (db : List EvalRow) (y_start y_end : ℤ) : ℤ :=
  let f := db.filter (yesterday_filter y_start y_end)
  if f.length = 0 then 0
  else sql_round_half_up_tenths
    (((f.map (fun r =>
        if sql_numeric_success r.predict_winner r.result then (1 : ℚ) else 0)).sum
      / (f.length : ℚ)) * 100)

/-- One-decimal rendering of a tenths value, as `f"{acc:.1f}"` renders the
exact one-decimal accuracy values produced here. -/
def format_acc_1dp (t : ℤ) : String :=
  toString (t / 10) ++ "." ++ toString (t % 10)

/-- The digest text built by `ai_yesterday_text_for_country`: the canned
no-data message on an empty row set, else the aggregate accuracy header
followed by one numbered line and success marker per row. -/
def ai_yesterday_text (db : List EvalRow) (y_start y_end : ℤ) : String :=
  let rows := ai_yesterday_rows db y_start y_end
  if rows.isEmpty then "昨天暂无AI记录，可以稍后再试哦～"
  else
    let acc := ai_yesterday_acc_tenths db y_start y_end
    let lines := rows.enum.map (fun p =>
      toString (p.1 + 1) ++ ". " ++ String.mk p.2.1 ++ " vs " ++ String.mk p.2.2.1
        ++ " " ++ (if p.2.2.2 then "✅" else "❌"))
    "📊 AI昨日预测准确率: " ++ format_acc_1dp acc ++ "%\n\n"
      ++ String.intercalate "\n" lines

theorem list_sum_ite_count (l : List EvalRow) (p : EvalRow → Bool) :
    (l.map (fun r => if p r then (1 : ℚ) else 0)).sum = (l.countP p : ℚ) := by
  induction l with
  | nil => simp
  | cons a t ih =>
    by_cases h : p a = true
    · simp [h, ih, List.countP_cons]
      ring
    · simp [h, ih, List.countP_cons]

/-- C8: on any record set with a nonempty yesterday selection, the SQL-level
aggregate accuracy equals the accuracy recomputed from the per-row success
markers of the row query (marker count divided by row count, in percent,
rounded to one decimal place) — the two queries filter identically, so the
digest header always matches its own markers. -/
theorem ai_yesterday_consistency (db : List EvalRow) (y_start y_end : ℤ)
    (hne : ai_yesterday_rows db y_start y_end ≠ []) :
    ai_yesterday_acc_tenths db y_start y_end
      = sql_round_half_up_tenths
          (((((ai_yesterday_rows db y_start y_end).filter (fun x => x.2.2)).length : ℚ)
            / ((ai_yesterday_rows db y_start y_end).length : ℚ)) * 100) := by
  have hlen : (ai_yesterday_rows db y_start y_end).length
      = (db.filter (yesterday_filter y_start y_end)).length := by
    rw [ai_yesterday_rows, List.length_map]
  have hcount : ((ai_yesterday_rows db y_start y_end).filter (fun x => x.2.2)).length
      = (db.filter (yesterday_filter y_start y_end)).countP
          (fun r => sql_numeric_success r.predict_winner r.result) := by
    rw [ai_yesterday_rows, ← List.countP_eq_length_filter, List.countP_map]
    rfl
  have hne' : ¬ ((db.filter (yesterday_filter y_start y_end)).length = 0) := by
    intro h0
    apply hne
    rw [ai_yesterday_rows, List.eq_nil_of_length_eq_zero h0]
    rfl
  rw [ai_yesterday_acc_tenths]
  show (if (db.filter (yesterday_filter y_start y_end)).length = 0 then 0
    else sql_round_half_up_tenths
      ((((db.filter (yesterday_filter y_start y_end)).map (fun r =>
          if sql_numeric_success r.predict_winner r.result then (1 : ℚ) else 0)).sum
        / ((db.filter (yesterday_filter y_start y_end)).length : ℚ)) * 100)) = _
  rw [if_neg hne', list_sum_ite_count, hlen, hcount]

/-- The concrete five-record yesterday selection used by the C8 witness:
three numerically correct predictions and two incorrect ones, all flagged,
high-confidence, settled, and kicking off inside the window `[0, 1440)`. -/
def yesterday_demo_rows : List EvalRow :=
  [{ fixture_id := 1, predict_winner := some "1".data, result := some "1".data,
     confidence := mkRat 7 10, if_bet := some 1, fixture_date := some 100,
     home_name := "H1".data, away_name := "A1".data },
   { fixture_id := 2, predict_winner := some "0".data, result := some "0".data,
     confidence := mkRat 8 10, if_bet := some 1, fixture_date := some 200,
     home_name := "H2".data, away_name := "A2".data },
   { fixture_id := 3, predict_winner := some "3".data, result := some "3".data,
     confidence := mkRat 9 10, if_bet := some 1, fixture_date := some 300,
     home_name := "H3".data, away_name := "A3".data },
   { fixture_id := 4, predict_winner := some "3".data, result := some "0".data,
     confidence := mkRat 7 10, if_bet := some 1, fixture_date := some 400,
     home_name := "H4".data, away_name := "A4".data },
   { fixture_id := 5, predict_winner := some "1".data, result := some "0".data,
     confidence := mkRat 7 10, if_bet := some 1, fixture_date := some 500,
     home_name := "H5".data, away_name := "A5".data }]

/-- Witness for C8: on the five-record set with three correct predictions
the aggregate reads 60.0% (600 tenths), exactly three rows carry a success
marker, and the digest text is exactly the header plus the five marked
lines. -/
theorem ai_yesterday_consistency_witness :
    (ai_yesterday_rows yesterday_demo_rows 0 1440).length = 5
    ∧ ((ai_yesterday_rows yesterday_demo_rows 0 1440).filter (fun x => x.2.2)).length = 3
    ∧ ai_yesterday_acc_tenths yesterday_demo_rows 0 1440 = 600
    ∧ ai_yesterday_text yesterday_demo_rows 0 1440
      = "📊 AI昨日预测准确率: 60.0%\n\n1. H1 vs A1 ✅\n2. H2 vs A2 ✅\n3. H3 vs A3 ✅\n4. H4 vs A4 ❌\n5. H5 vs A5 ❌" := by
  have hacc : ai_yesterday_acc_tenths yesterday_demo_rows 0 1440 = 600 := by
    rw [ai_yesterday_consistency yesterday_demo_rows 0 1440 (by decide)]
    have h1 : ((ai_yesterday_rows yesterday_demo_rows 0 1440).filter
        (fun x => x.2.2)).length = 3 := by decide
    have h2 : (ai_yesterday_rows yesterday_demo_rows 0 1440).length = 5 := by decide
    rw [h1, h2]
    rw [sql_round_half_up_tenths, if_pos (by norm_num)]
    norm_num
  refine ⟨by decide, by decide, hacc, ?_⟩
  rw [ai_yesterday_text]
  rw [hacc]
  decide
